import Mathlib

/-!
# Verification of the uniswap-v2-pairs-atq-module pipeline

Shallow embedding of `src/main.mts`: a single linear pipeline that
resolves a subgraph URL from a chain id, paginates a GraphQL endpoint
with a `createdAtTimestamp` cursor, validates token text fields, and
maps each pair record to an output `ContractTag`.

Modelling conventions:
* JavaScript strings are modelled by Lean `String`s, indexed at the
  character level (the source only manipulates ASCII-safe operations,
  so code-unit vs character indexing agree on all relevant inputs).
* The HTTP layer is modelled by an explicit `HttpResponse` value per
  fetch call; a run of `returnTags` consumes a scripted list of
  responses, one per fetch, and records the cursor passed to each
  fetch call plus the console output, as data.
* Thrown JS `Error`s are modelled by `Except String` carrying the
  error message; interpolation of an `Error` object into a template
  string (`${error}`) renders as `"Error: " ++ message`, as in JS.
-/

namespace UniswapV2Atq

/-- `interface Token { id, name, symbol }` from the source. -/
structure Token where
  id : String
  name : String
  symbol : String
deriving Repr, DecidableEq, Inhabited

/-- `interface Pair { id, createdAtTimestamp, token0, token1 }` from the
source.  `createdAtTimestamp` is a JS number holding a non-negative
integer timestamp, modelled as `Nat`. -/
structure Pair where
  id : String
  createdAtTimestamp : Nat
  token0 : Token
  token1 : Token
deriving Repr, DecidableEq, Inhabited

/-- `interface GraphQLData { pairs: Pair[] }`; the `pairs` field is kept
optional because the source casts the JSON body unchecked and then
tests `!result.data.pairs`. -/
structure GraphQLData where
  pairs : Option (List Pair)
deriving Repr, DecidableEq

/-- One entry of the `errors` array of a GraphQL response body. -/
structure GQLError where
  message : String
deriving Repr, DecidableEq

/-- `interface GraphQLResponse { data?: GraphQLData; errors?: {message}[] }`.
The TS field `data` is called `dataField` here (`data` clashes with the
`String` field name in Lean). -/
structure GraphQLResponse where
  dataField : Option GraphQLData
  errors : Option (List GQLError)
deriving Repr, DecidableEq

/-- The observable part of a `node-fetch` response used by `fetchData`:
`response.ok`, `response.status`, and the parsed JSON body. -/
structure HttpResponse where
  ok : Bool
  status : Nat
  body : GraphQLResponse
deriving Repr, DecidableEq

/-- The output record.  Field names carry the JSON keys
`"Contract Address"`, `"Public Name Tag"`, `"Project Name"`,
`"UI/Website Link"`, `"Public Note"`. -/
structure ContractTag where
  contractAddress : String
  publicNameTag : String
  projectName : String
  uiWebsiteLink : String
  publicNote : String
deriving Repr, DecidableEq

/-! ## String helpers (JS semantics) -/

/-- State machine for the regex `/<[^>]*>/`: the regex matches exactly
when some `<` is followed (anywhere later) by some `>`, since the first
`>` after a `<` closes a match.  `seenLt` records whether a `<` has
occurred. -/
def htmlScan : List Char → Bool → Bool
  | [], _ => false
  | c :: rest, seenLt =>
    if seenLt && c = '>' then true
    else htmlScan rest (seenLt || c = '<')

/-- `containsHtmlOrMarkdown(text)`: `/<[^>]*>/.test(text)`. -/
def containsHtmlOrMarkdown (text : String) : Bool :=
  htmlScan text.data false

/-- `truncateString(text, maxLength)`: if longer than `maxLength`,
keep the first `maxLength - 3` characters and append `"..."`. -/
def truncateString (text : String) (maxLength : Nat) : String :=
  if text.length > maxLength then
    String.mk (text.data.take (maxLength - 3)) ++ "..."
  else text

/-- `startsWithList l pat`: `pat` is an initial segment of `l`. -/
def startsWithList : List Char → List Char → Bool
  | _, [] => true
  | [], _ :: _ => false
  | c :: cs, p :: ps => c = p && startsWithList cs ps

/-- Character-list core of JS `String.prototype.replace` with a string
pattern: replace only the first occurrence. -/
def replaceFirstAux (pat rep : List Char) : List Char → List Char
  | [] => if pat.isEmpty then rep else []
  | c :: cs =>
    if startsWithList (c :: cs) pat then rep ++ (c :: cs).drop pat.length
    else c :: replaceFirstAux pat rep cs

/-- JS `s.replace(pat, rep)` with a plain-string pattern: only the
first occurrence is replaced. -/
def replaceFirst (s pat rep : String) : String :=
  String.mk (replaceFirstAux pat.data rep.data s.data)

/-- Upper-case hexadecimal digit of a value `< 16`. -/
def hexDigitChar (n : Nat) : Char :=
  if n < 10 then Char.ofNat (48 + n) else Char.ofNat (55 + n)

/-- Percent-encoding of one byte, upper-case, as `encodeURIComponent`
produces. -/
def percentByte (b : Nat) : List Char :=
  ['%', hexDigitChar (b / 16), hexDigitChar (b % 16)]

/-- UTF-8 bytes of one character. -/
def utf8Bytes (c : Char) : List Nat :=
  let n := c.toNat
  if n < 128 then [n]
  else if n < 2048 then [192 + n / 64, 128 + n % 64]
  else if n < 65536 then [224 + n / 4096, 128 + n / 64 % 64, 128 + n % 64]
  else [240 + n / 262144, 128 + n / 4096 % 64, 128 + n / 64 % 64, 128 + n % 64]

/-- The characters `encodeURIComponent` leaves unescaped:
`A-Z a-z 0-9 - _ . ! ~ * ' ( )`. -/
def uriUnreserved (c : Char) : Bool :=
  c.isAlpha || c.isDigit || ['-', '_', '.', '!', '~', '*', '\'', '(', ')'].contains c

/-- Encoding of one character as `encodeURIComponent` renders it. -/
def encodeChar (c : Char) : List Char :=
  if uriUnreserved c then [c] else ((utf8Bytes c).map percentByte).flatten

/-- JS `encodeURIComponent`. -/
def encodeURIComponent (s : String) : String :=
  String.mk ((s.data.map encodeChar).flatten)

/-- The whitespace characters JS `String.prototype.trim` strips (ASCII
whitespace plus the common Unicode space characters). -/
def jsWhitespace (c : Char) : Bool :=
  c = ' ' || c = '\t' || c = '\n' || c = '\r' ||
    c.toNat = 11 || c.toNat = 12 || c.toNat = 160 || c.toNat = 65279

/-- JS `s.trim()`: strip whitespace from both ends. -/
def jsTrim (s : String) : String :=
  String.mk (((s.data.dropWhile jsWhitespace).reverse.dropWhile jsWhitespace).reverse)

/-! ## Model of `isNaN(Number(chainId))` -/

/-- Drop one leading `+` or `-` sign. -/
def stripSign : List Char → List Char
  | [] => []
  | c :: r => if c = '+' || c = '-' then r else c :: r

/-- Hexadecimal digit test. -/
def isHexDigitChar (c : Char) : Bool :=
  c.isDigit || ('a' ≤ c && c ≤ 'f') || ('A' ≤ c && c ≤ 'F')

/-- Valid continuation after the mantissa of a JS decimal numeric
literal: nothing, or `e`/`E`, an optional sign, and at least one digit. -/
def expTail : List Char → Bool
  | [] => true
  | c :: r =>
    (c = 'e' || c = 'E') &&
      (let r' := stripSign r
       !r'.isEmpty && r'.all Char.isDigit)

/-- Unsigned JS decimal numeric literal:
`digits [ "." digits* ] exp?` or `"." digits+ exp?`. -/
def decLiteral (l : List Char) : Bool :=
  let (intPart, r1) := l.span Char.isDigit
  match r1 with
  | [] => !intPart.isEmpty
  | '.' :: r2 =>
    let (fracPart, r3) := r2.span Char.isDigit
    (!intPart.isEmpty || !fracPart.isEmpty) && expTail r3
  | _ => !intPart.isEmpty && expTail r1

/-- Unsigned JS radix literal: `0x`/`0X` hex, `0o`/`0O` octal, or
`0b`/`0B` binary, each with at least one digit. -/
def radixLiteral : List Char → Bool
  | '0' :: c :: r =>
    ((c = 'x' || c = 'X') && !r.isEmpty && r.all isHexDigitChar) ||
    ((c = 'o' || c = 'O') && !r.isEmpty && r.all (fun d => '0' ≤ d && d ≤ '7')) ||
    ((c = 'b' || c = 'B') && !r.isEmpty && r.all (fun d => d = '0' || d = '1'))
  | _ => false

/-- Model of the JavaScript expression `isNaN(Number(s))`: `Number`
trims whitespace, maps the empty string to `0`, and otherwise accepts
a radix literal, an optionally signed `Infinity`, or an optionally
signed decimal literal; everything else is `NaN`. -/
def jsIsNaNNumber (s : String) : Bool :=
  let t := (jsTrim s).data
  if t.isEmpty then false
  else if radixLiteral t then false
  else
    let u := stripSign t
    if u = "Infinity".data then false
    else !decLiteral u

/-! ## URL resolution -/

/-- `SUBGRAPH_URLS`: the fixed table of supported networks, with the
`decentralized` endpoint template of each entry. -/
def SUBGRAPH_URLS : List (String × String) :=
  [("1", "https://gateway-arbitrum.network.thegraph.com/api/[api-key]/deployments/id/QmZzsQGDmQFbzYkv2qx4pVnD6aVnuhKbD3t1ea7SAvV7zE")]

/-- `SUBGRAPH_URLS[chainId]` of the source. -/
def lookupUrl (chainId : String) : Option String :=
  (SUBGRAPH_URLS.find? (fun e => e.1 = chainId)).map (fun e => e.2)

/-- `Object.keys(SUBGRAPH_URLS).join(", ")`. -/
def supportedChainIds : String :=
  String.intercalate ", " (SUBGRAPH_URLS.map (fun e => e.1))

/-- The message of the error thrown for an unsupported or invalid
chain id. -/
def unsupportedMsg (chainId : String) : String :=
  "Unsupported or invalid Chain ID provided: " ++ chainId ++
    ". Only the following values are accepted: " ++ supportedChainIds

/-- `prepareUrl(chainId, apiKey)`: fail when the table has no entry or
`isNaN(Number(chainId))`; otherwise substitute the URL-encoded api key
for the `[api-key]` placeholder. -/
def prepareUrl (chainId apiKey : String) : Except String String :=
  match lookupUrl chainId with
  | none => .error (unsupportedMsg chainId)
  | some url =>
    if jsIsNaNNumber chainId then .error (unsupportedMsg chainId)
    else .ok (replaceFirst url "[api-key]" (encodeURIComponent apiKey))

/-! ## Fetching one page -/

/-- `fetchData(subgraphUrl, lastTimestamp)` applied to the response the
transport returned for this call.  The first component is the result
(`.error` models a thrown `Error`'s message), the second the
`console.error` lines emitted during the call.  `lastTimestamp` only
shapes the request body, which the response model already accounts
for. -/
def fetchData (response : HttpResponse) (lastTimestamp : Nat) :
    Except String (List Pair) × List String :=
  let _ := lastTimestamp
  if !response.ok then
    (.error ("HTTP error: " ++ toString response.status), [])
  else
    match response.body.errors with
    | some errs =>
      (.error "GraphQL errors occurred: see logs for details.",
        errs.map (fun e => "GraphQL error: " ++ e.message))
    | none =>
      match response.body.dataField with
      | none => (.error "No pairs data found.", [])
      | some d =>
        match d.pairs with
        | none => (.error "No pairs data found.", [])
        | some ps => (.ok ps, [])

/-! ## Transformation -/

/-- The mapping applied to each valid pair inside
`transformPairsToTags`. -/
def pairToTag (chainId : String) (pair : Pair) : ContractTag :=
  let truncatedSymbolsText :=
    truncateString (jsTrim pair.token0.symbol ++ "/" ++ jsTrim pair.token1.symbol) 45
  { contractAddress := "eip155:" ++ chainId ++ ":" ++ pair.id
    publicNameTag := truncatedSymbolsText ++ " Pair"
    projectName := "Uniswap v2"
    uiWebsiteLink := "https://uniswap.org"
    publicNote :=
      "The pair contract on Uniswap v2 for the " ++
        jsTrim (replaceFirst pair.token0.name "USD//C" "USDC") ++ " (" ++
        jsTrim pair.token0.symbol ++ ") / " ++
        jsTrim (replaceFirst pair.token1.name "USD//C" "USDC") ++ " (" ++
        jsTrim pair.token1.symbol ++ ") pair." }

/-- The `forEach` of `transformPairsToTags` splitting the input into
`validPairs` and `rejectedNames`, both in input order. -/
def collectValid : List Pair → List Pair × List String
  | [] => ([], [])
  | pair :: rest =>
    let token0Invalid :=
      containsHtmlOrMarkdown pair.token0.name ||
        containsHtmlOrMarkdown pair.token0.symbol
    let token1Invalid :=
      containsHtmlOrMarkdown pair.token1.name ||
        containsHtmlOrMarkdown pair.token1.symbol
    let (vs, rej) := collectValid rest
    if token0Invalid || token1Invalid then
      (vs,
        ((if token0Invalid then
            [pair.token0.name ++ ", Symbol: " ++ pair.token0.symbol] else []) ++
          (if token1Invalid then
            [pair.token1.name ++ ", Symbol: " ++ pair.token1.symbol] else [])) ++ rej)
    else (pair :: vs, rej)

/-- `transformPairsToTags(chainId, pairs)`: tags of the valid pairs,
together with the `rejectedNames` the source passes to `console.log`
when non-empty. -/
def transformPairsToTags (chainId : String) (pairs : List Pair) :
    List ContractTag × List String :=
  ((collectValid pairs).1.map (pairToTag chainId), (collectValid pairs).2)

/-! ## The pagination loop of `returnTags` -/

deriving instance DecidableEq for Except

/-- Observable outcome of one run of `returnTags`:
* `result` — `some (.ok tags)` for a normal return, `some (.error m)`
  for a rejection with message `m`, and `none` only when the scripted
  response list ran out while the loop still wanted another page (a
  model artifact, not program behaviour);
* `cursors` — the `lastTimestamp` passed to each fetch call, in order;
* `logs` — the console lines, in order. -/
structure RunTrace where
  result : Option (Except String (List ContractTag))
  cursors : List Nat
  logs : List String
deriving Repr, DecidableEq

/-- Default record used to model `pairs[pairs.length - 1]`; it is only
read when the page is non-empty. -/
def defPair : Pair := ⟨"", 0, ⟨"", "", ""⟩, ⟨"", "", ""⟩⟩

/-- The `console.log` lines one successful page iteration emits: the
rejected-names line when any pair was rejected, then the progress
line (`counterAfter` is the incremented counter). -/
def pageLogs (chainId : String) (pairs : List Pair) (counterAfter : Nat) :
    List String :=
  (if (transformPairsToTags chainId pairs).2.isEmpty then [] else
    ["Rejected token names due to HTML/Markdown content: " ++
      String.intercalate ", " (transformPairsToTags chainId pairs).2]) ++
  ["Retrieved first " ++ toString (counterAfter * 1000) ++ " entries..."]

/-- The `while (isMore)` loop of `returnTags`, consuming one scripted
response per fetch call.  `parseInt(ts.toString(), 10)` on the `Nat`
timestamp is the identity and is elided. -/
def returnTagsLoop (chainId : String) :
    List HttpResponse → Nat → List ContractTag → Nat → RunTrace
  | [], _, _, _ => ⟨none, [], []⟩
  | response :: rest, lastTimestamp, allTags, counter =>
    match fetchData response lastTimestamp with
    | (.error msg, flogs) =>
      ⟨some (.error ("Failed fetching data: Error: " ++ msg)),
        [lastTimestamp], flogs ++ ["An error occurred: " ++ msg]⟩
    | (.ok pairs, flogs) =>
      let allTags' := allTags ++ (transformPairsToTags chainId pairs).1
      let logs1 := flogs ++ pageLogs chainId pairs (counter + 1)
      if pairs.length = 1000 then
        let next := returnTagsLoop chainId rest
          (pairs.getLastD defPair).createdAtTimestamp allTags' (counter + 1)
        ⟨next.result, lastTimestamp :: next.cursors, logs1 ++ next.logs⟩
      else
        ⟨some (.ok allTags'), [lastTimestamp], logs1⟩

/-- `returnTags(chainId, apiKey)` run against a scripted list of
responses, one per fetch call.  `prepareUrl` runs before the
`try`/`catch`, so its error leaves `returnTags` unwrapped and without
console output. -/
def returnTags (chainId apiKey : String) (responses : List HttpResponse) :
    RunTrace :=
  match prepareUrl chainId apiKey with
  | .error msg => ⟨some (.error msg), [], []⟩
  | .ok _ => returnTagsLoop chainId responses 0 [] 0

/-- The well-behaved response: HTTP 200 carrying exactly the given
page of pairs. -/
def okResponse (pairs : List Pair) : HttpResponse :=
  { ok := true, status := 200,
    body := { dataField := some { pairs := some pairs }, errors := none } }

/-- Pages arrive sorted ascending by `createdAtTimestamp`. -/
abbrev SortedByTimestamp (l : List Pair) : Prop :=
  l.Chain' (fun a b => a.createdAtTimestamp ≤ b.createdAtTimestamp)

/-- The maximum `createdAtTimestamp` of a page. -/
def maxTS (l : List Pair) : Nat :=
  l.foldr (fun p m => max p.createdAtTimestamp m) 0

/-- The `rejectedNames` entries one pair contributes in
`transformPairsToTags` (empty for a valid pair). -/
def rejEntries (pair : Pair) : List String :=
  let token0Invalid :=
    containsHtmlOrMarkdown pair.token0.name ||
      containsHtmlOrMarkdown pair.token0.symbol
  let token1Invalid :=
    containsHtmlOrMarkdown pair.token1.name ||
      containsHtmlOrMarkdown pair.token1.symbol
  if token0Invalid || token1Invalid then
    (if token0Invalid then
      [pair.token0.name ++ ", Symbol: " ++ pair.token0.symbol] else []) ++
    (if token1Invalid then
      [pair.token1.name ++ ", Symbol: " ++ pair.token1.symbol] else [])
  else []

/-! ## Concrete sample inputs -/

/-- A plain-text pair record with the given creation timestamp. -/
def wPair (t : Nat) : Pair :=
  ⟨"0xb4e16d0168e52d35cacd2c6185b44281ec28c9dc", t,
    ⟨"0xt0", "Token Zero", "TK0"⟩, ⟨"0xt1", "Token One", "TK1"⟩⟩

/-- A full first page: 1000 records, all at timestamp 5. -/
def page1 : List Pair := List.replicate 1000 (wPair 5)

/-- A full second page: 1000 records, all at timestamp 7. -/
def page2 : List Pair := List.replicate 1000 (wPair 7)

/-- A short final page: 400 records at timestamp 9. -/
def page3 : List Pair := List.replicate 400 (wPair 9)

/-- A 50-character string. -/
def s50 : String := "12345678901234567890123456789012345678901234567890"

/-- A pair whose first token carries the `USD//C` display name. -/
def usdcPair : Pair :=
  ⟨"0xae461ca67b15dc8dc81ce7615e0320da1a9ab8d5", 1,
    ⟨"0xa0b8", "USD//C Coin", "USDC"⟩, ⟨"0xc02a", "Wrapped Ether", "WETH"⟩⟩

/-- A pair whose first token name carries an HTML-tag-like substring. -/
def scriptPair : Pair :=
  ⟨"0xdeadbeef00000000000000000000000000000000", 2,
    ⟨"0xs", "<script>", "XSS"⟩, ⟨"0xt1", "Token One", "TK1"⟩⟩

/-! ## Helper lemmas -/

/-- The fixed table resolves only the chain id `"1"`, to its single
endpoint template. -/
theorem lookupUrl_eq_some (chainId url : String)
    (h : lookupUrl chainId = some url) :
    chainId = "1" ∧
      url = "https://gateway-arbitrum.network.thegraph.com/api/[api-key]/deployments/id/QmZzsQGDmQFbzYkv2qx4pVnD6aVnuhKbD3t1ea7SAvV7zE" := by
  by_cases hc : ("1" : String) = chainId
  · subst hc
    refine ⟨rfl, ?_⟩
    have hl : lookupUrl "1" = some
        "https://gateway-arbitrum.network.thegraph.com/api/[api-key]/deployments/id/QmZzsQGDmQFbzYkv2qx4pVnD6aVnuhKbD3t1ea7SAvV7zE" := rfl
    rw [hl] at h
    exact (Option.some.inj h).symm
  · exfalso
    have hn : lookupUrl chainId = none := by
      simp [lookupUrl, SUBGRAPH_URLS, List.find?, hc]
    rw [hn] at h
    exact Option.noConfusion h

/-- `prepareUrl` fails only with the unsupported-chain message. -/
theorem prepareUrl_error_msg (chainId apiKey m : String)
    (h : prepareUrl chainId apiKey = .error m) : m = unsupportedMsg chainId := by
  cases hl : lookupUrl chainId with
  | none =>
    simp [prepareUrl, hl] at h
    exact h.symm
  | some url =>
    by_cases hn : jsIsNaNNumber chainId = true
    · simp [prepareUrl, hl, hn] at h
      exact h.symm
    · simp [prepareUrl, hl, hn] at h

/-- A well-behaved response is fetched without error or logs. -/
theorem fetchData_okResponse (pairs : List Pair) (lt : Nat) :
    fetchData (okResponse pairs) lt = (.ok pairs, []) := rfl

/-- A successful fetch emits no console output. -/
theorem fetchData_ok_no_logs (r : HttpResponse) (lt : Nat) (ps : List Pair)
    (ls : List String) (h : fetchData r lt = (.ok ps, ls)) : ls = [] := by
  cases hok : r.ok with
  | false => simp [fetchData, hok] at h
  | true =>
    cases herr : r.body.errors with
    | some errs => simp [fetchData, hok, herr] at h
    | none =>
      cases hd : r.body.dataField with
      | none => simp [fetchData, hok, herr, hd] at h
      | some d =>
        cases hp : d.pairs with
        | none => simp [fetchData, hok, herr, hd, hp] at h
        | some ps' =>
          simp [fetchData, hok, herr, hd, hp] at h
          exact h.2

/-- One loop iteration whose fetch fails: log, wrap, stop. -/
theorem returnTagsLoop_error_step (chainId : String) (r : HttpResponse)
    (rest : List HttpResponse) (lt : Nat) (acc : List ContractTag) (ctr : Nat)
    (m0 : String) (flogs : List String)
    (hf : fetchData r lt = (.error m0, flogs)) :
    returnTagsLoop chainId (r :: rest) lt acc ctr =
      ⟨some (.error ("Failed fetching data: Error: " ++ m0)), [lt],
        flogs ++ ["An error occurred: " ++ m0]⟩ := by
  simp only [returnTagsLoop, hf]

/-- One loop iteration on a full page of 1000 records: accumulate and
continue with the last record's timestamp as the next cursor. -/
theorem returnTagsLoop_full (chainId : String) (r : HttpResponse)
    (pairs : List Pair) (rest : List HttpResponse) (lt : Nat)
    (acc : List ContractTag) (ctr : Nat)
    (hf : fetchData r lt = (.ok pairs, [])) (hlen : pairs.length = 1000) :
    returnTagsLoop chainId (r :: rest) lt acc ctr =
      ⟨(returnTagsLoop chainId rest (pairs.getLastD defPair).createdAtTimestamp
          (acc ++ (transformPairsToTags chainId pairs).1) (ctr + 1)).result,
        lt :: (returnTagsLoop chainId rest
          (pairs.getLastD defPair).createdAtTimestamp
          (acc ++ (transformPairsToTags chainId pairs).1) (ctr + 1)).cursors,
        pageLogs chainId pairs (ctr + 1) ++
          (returnTagsLoop chainId rest (pairs.getLastD defPair).createdAtTimestamp
            (acc ++ (transformPairsToTags chainId pairs).1) (ctr + 1)).logs⟩ := by
  simp only [returnTagsLoop, hf]
  rw [if_pos hlen]
  simp

/-- One loop iteration on a short page: accumulate and return. -/
theorem returnTagsLoop_short (chainId : String) (r : HttpResponse)
    (pairs : List Pair) (rest : List HttpResponse) (lt : Nat)
    (acc : List ContractTag) (ctr : Nat)
    (hf : fetchData r lt = (.ok pairs, [])) (hlen : pairs.length ≠ 1000) :
    returnTagsLoop chainId (r :: rest) lt acc ctr =
      ⟨some (.ok (acc ++ (transformPairsToTags chainId pairs).1)), [lt],
        pageLogs chainId pairs (ctr + 1)⟩ := by
  simp only [returnTagsLoop, hf]
  rw [if_neg hlen]
  simp

/-- On the supported chain id, `returnTags` runs the loop from cursor
0 with empty accumulators. -/
theorem returnTags_ok_url (apiKey : String) (responses : List HttpResponse) :
    returnTags "1" apiKey responses = returnTagsLoop "1" responses 0 [] 0 := rfl

/-- Closed form of the `forEach` split: valid pairs are the filtered
input, rejected names are the per-pair contributions in order. -/
theorem collectValid_eq (pairs : List Pair) :
    collectValid pairs =
      (pairs.filter (fun p =>
        !((containsHtmlOrMarkdown p.token0.name ||
            containsHtmlOrMarkdown p.token0.symbol) ||
          (containsHtmlOrMarkdown p.token1.name ||
            containsHtmlOrMarkdown p.token1.symbol))),
        (pairs.map rejEntries).flatten) := by
  induction pairs with
  | nil => rfl
  | cons p rest ih =>
    simp only [collectValid, ih, List.filter_cons, List.map_cons,
      List.flatten_cons]
    by_cases h : ((containsHtmlOrMarkdown p.token0.name ||
        containsHtmlOrMarkdown p.token0.symbol) ||
      (containsHtmlOrMarkdown p.token1.name ||
        containsHtmlOrMarkdown p.token1.symbol)) = true
    · simp [rejEntries, h]
    · simp [rejEntries, h]

/-- In a non-empty ascending page, the last record carries the
maximum timestamp. -/
theorem getLastD_ts_sorted :
    ∀ (l : List Pair) (d : Pair), l ≠ [] → SortedByTimestamp l →
      (l.getLastD d).createdAtTimestamp = maxTS l := by
  intro l
  induction l with
  | nil => intro d h _; exact absurd rfl h
  | cons a t ih =>
    intro d _ hs
    cases t with
    | nil => simp [maxTS, List.getLastD]
    | cons b t' =>
      have hcc := List.chain'_cons.mp hs
      have hrec := ih a (by simp) hcc.2
      have hstep : ((a :: b :: t').getLastD d) = ((b :: t').getLastD a) := rfl
      rw [hstep, hrec]
      have hle : a.createdAtTimestamp ≤ maxTS (b :: t') := by
        have h1 : b.createdAtTimestamp ≤ maxTS (b :: t') := by
          show b.createdAtTimestamp ≤ max b.createdAtTimestamp (maxTS t')
          exact Nat.le_max_left _ _
        exact le_trans hcc.1 h1
      show maxTS (b :: t') = max a.createdAtTimestamp (maxTS (b :: t'))
      exact (Nat.max_eq_right hle).symm

/-! ## Claims -/

/-- Claim C3: a chain id absent from the supported-network table, or
one that is not numeric, makes `prepareUrl` fail with the message that
enumerates exactly the supported chain ids; a chain id present in the
table resolves to that entry's endpoint template with the placeholder
replaced by the URL-encoded api key. -/
theorem prepareUrl_contract :
    (∀ chainId apiKey, lookupUrl chainId = none →
      prepareUrl chainId apiKey = .error (unsupportedMsg chainId)) ∧
    (∀ chainId apiKey, jsIsNaNNumber chainId = true →
      prepareUrl chainId apiKey = .error (unsupportedMsg chainId)) ∧
    (∀ chainId url apiKey, lookupUrl chainId = some url →
      prepareUrl chainId apiKey =
        .ok (replaceFirst url "[api-key]" (encodeURIComponent apiKey))) := by
  refine ⟨?_, ?_, ?_⟩
  · intro chainId apiKey h
    simp [prepareUrl, h]
  · intro chainId apiKey h
    cases hl : lookupUrl chainId with
    | none => simp [prepareUrl, hl]
    | some url => simp [prepareUrl, hl, h]
  · intro chainId url apiKey h
    obtain ⟨hc, hu⟩ := lookupUrl_eq_some chainId url h
    subst hc
    subst hu
    rfl

/-- Claim C3 witness: `"2"` is rejected with the enumerating message;
`"1"` resolves, URL-encoding the api key `"a b"`. -/
theorem prepareUrl_contract_witness :
    prepareUrl "2" "k" = .error (unsupportedMsg "2") ∧
    prepareUrl "1" "a b" =
      .ok (replaceFirst
        "https://gateway-arbitrum.network.thegraph.com/api/[api-key]/deployments/id/QmZzsQGDmQFbzYkv2qx4pVnD6aVnuhKbD3t1ea7SAvV7zE"
        "[api-key]" (encodeURIComponent "a b")) :=
  ⟨prepareUrl_contract.1 "2" "k" (by decide),
    prepareUrl_contract.2.2 "1" _ "a b" rfl⟩

/-- Claim C4: a symbols string longer than 45 characters truncates to
exactly 45 characters ending in `"..."`; one of length at most 45 is
returned unchanged. -/
theorem truncateString_spec (s : String) :
    (s.length > 45 →
      (truncateString s 45).length = 45 ∧
      ∃ u : String, truncateString s 45 = u ++ "...") ∧
    (s.length ≤ 45 → truncateString s 45 = s) := by
  constructor
  · intro h
    unfold truncateString
    rw [if_pos h]
    constructor
    · rw [String.length_append, String.length_mk, List.length_take]
      have h' : 45 < s.data.length := h
      have h3 : ("..." : String).length = 3 := rfl
      rw [h3]
      omega
    · exact ⟨String.mk (s.data.take (45 - 3)), rfl⟩
  · intro h
    unfold truncateString
    rw [if_neg (by omega : ¬ s.length > 45)]

/-- Claim C4 witness: the 50-character string truncates to 45
characters ending in the ellipsis. -/
theorem truncateString_spec_witness :
    s50.length > 45 ∧
    ((truncateString s50 45).length = 45 ∧
      ∃ u : String, truncateString s50 45 = u ++ "...") :=
  ⟨by decide, (truncateString_spec s50).1 (by decide)⟩

/-- Claim C6: `fetchData` fails on a non-successful HTTP status;
otherwise fails after logging each message when the body carries an
errors list; otherwise fails when `data.pairs` is absent; otherwise
returns the page's pair records. -/
theorem fetchData_spec (response : HttpResponse) (lastTimestamp : Nat) :
    (response.ok = false →
      fetchData response lastTimestamp =
        (.error ("HTTP error: " ++ toString response.status), [])) ∧
    (∀ errs, response.ok = true → response.body.errors = some errs →
      fetchData response lastTimestamp =
        (.error "GraphQL errors occurred: see logs for details.",
          errs.map (fun e => "GraphQL error: " ++ e.message))) ∧
    (response.ok = true → response.body.errors = none →
      response.body.dataField = none →
      fetchData response lastTimestamp = (.error "No pairs data found.", [])) ∧
    (∀ d, response.ok = true → response.body.errors = none →
      response.body.dataField = some d → d.pairs = none →
      fetchData response lastTimestamp = (.error "No pairs data found.", [])) ∧
    (∀ d ps, response.ok = true → response.body.errors = none →
      response.body.dataField = some d → d.pairs = some ps →
      fetchData response lastTimestamp = (.ok ps, [])) := by
  refine ⟨?_, ?_, ?_, ?_, ?_⟩
  · intro h
    simp [fetchData, h]
  · intro errs hok herr
    simp [fetchData, hok, herr]
  · intro hok herr hd
    simp [fetchData, hok, herr, hd]
  · intro d hok herr hd hp
    simp [fetchData, hok, herr, hd, hp]
  · intro d ps hok herr hd hp
    simp [fetchData, hok, herr, hd, hp]

/-- Claim C6 witness: an HTTP 500 response makes `fetchData` fail with
the transport message. -/
theorem fetchData_spec_witness :
    (⟨false, 500, ⟨none, none⟩⟩ : HttpResponse).ok = false ∧
    fetchData ⟨false, 500, ⟨none, none⟩⟩ 0 =
      (.error ("HTTP error: " ++ toString (⟨false, 500, ⟨none, none⟩⟩ :
        HttpResponse).status), []) :=
  ⟨rfl, (fetchData_spec ⟨false, 500, ⟨none, none⟩⟩ 0).1 rfl⟩

/-- Claim C10: a present-but-empty errors list still makes `fetchData`
fail with the GraphQL-errors message while logging nothing; with the
errors field absent, the call proceeds to the data check and never
yields the GraphQL-errors message. -/
theorem fetchData_empty_errors (response : HttpResponse)
    (lastTimestamp : Nat) (hok : response.ok = true) :
    (response.body.errors = some [] →
      fetchData response lastTimestamp =
        (.error "GraphQL errors occurred: see logs for details.", [])) ∧
    (response.body.errors = none →
      (fetchData response lastTimestamp).1 = .error "No pairs data found." ∨
      ∃ ps, (fetchData response lastTimestamp).1 = .ok ps) := by
  constructor
  · intro herr
    simp [fetchData, hok, herr]
  · intro herr
    cases hd : response.body.dataField with
    | none =>
      left
      simp [fetchData, hok, herr, hd]
    | some d =>
      cases hp : d.pairs with
      | none =>
        left
        simp [fetchData, hok, herr, hd, hp]
      | some ps =>
        right
        exact ⟨ps, by simp [fetchData, hok, herr, hd, hp]⟩

/-- Claim C10 witness: a 200 response whose body has `errors: []`
fails with the GraphQL-errors message and logs nothing. -/
theorem fetchData_empty_errors_witness :
    (⟨true, 200, ⟨some ⟨some []⟩, some []⟩⟩ : HttpResponse).ok = true ∧
    (⟨true, 200, ⟨some ⟨some []⟩, some []⟩⟩ : HttpResponse).body.errors = some [] ∧
    fetchData ⟨true, 200, ⟨some ⟨some []⟩, some []⟩⟩ 7 =
      (.error "GraphQL errors occurred: see logs for details.", []) :=
  ⟨rfl, rfl,
    (fetchData_empty_errors ⟨true, 200, ⟨some ⟨some []⟩, some []⟩⟩ 7 rfl).1 rfl⟩

/-- Claim C5: `transformPairsToTags` produces an output tag exactly for
the pairs none of whose four token text fields contains an
HTML-tag-like substring; rejected pairs contribute only log entries,
and a page containing them still lets the loop succeed. -/
theorem transformPairsToTags_spec (chainId : String) (pairs : List Pair) :
    (transformPairsToTags chainId pairs).1 =
      (pairs.filter (fun p =>
        !(containsHtmlOrMarkdown p.token0.name ||
          containsHtmlOrMarkdown p.token0.symbol ||
          containsHtmlOrMarkdown p.token1.name ||
          containsHtmlOrMarkdown p.token1.symbol))).map (pairToTag chainId) ∧
    (transformPairsToTags chainId pairs).2 = (pairs.map rejEntries).flatten ∧
    (∀ (rest : List HttpResponse) (lt ctr : Nat) (acc : List ContractTag),
      pairs.length ≠ 1000 →
      (returnTagsLoop chainId (okResponse pairs :: rest) lt acc ctr).result =
        some (.ok (acc ++ (transformPairsToTags chainId pairs).1))) := by
  have hb : (fun p : Pair =>
      !(containsHtmlOrMarkdown p.token0.name ||
        containsHtmlOrMarkdown p.token0.symbol ||
        containsHtmlOrMarkdown p.token1.name ||
        containsHtmlOrMarkdown p.token1.symbol)) =
      (fun p : Pair =>
      !((containsHtmlOrMarkdown p.token0.name ||
          containsHtmlOrMarkdown p.token0.symbol) ||
        (containsHtmlOrMarkdown p.token1.name ||
          containsHtmlOrMarkdown p.token1.symbol))) := by
    funext p
    simp [Bool.or_assoc]
  refine ⟨?_, ?_, ?_⟩
  · simp only [transformPairsToTags, collectValid_eq]
    rw [hb]
  · simp only [transformPairsToTags, collectValid_eq]
  · intro rest lt ctr acc hlen
    rw [returnTagsLoop_short chainId (okResponse pairs) pairs rest lt acc ctr
      (fetchData_okResponse pairs lt) hlen]

/-- Claim C5 witness: a two-pair page where the second pair's token
name is `"<script>"` keeps only the first pair, logs the rejection,
and the loop still succeeds. -/
theorem transformPairsToTags_spec_witness :
    (transformPairsToTags "1" [wPair 1, scriptPair]).1 =
      ([wPair 1, scriptPair].filter (fun p =>
        !(containsHtmlOrMarkdown p.token0.name ||
          containsHtmlOrMarkdown p.token0.symbol ||
          containsHtmlOrMarkdown p.token1.name ||
          containsHtmlOrMarkdown p.token1.symbol))).map (pairToTag "1") ∧
    (transformPairsToTags "1" [wPair 1, scriptPair]).2 =
      ([wPair 1, scriptPair].map rejEntries).flatten ∧
    (transformPairsToTags "1" [wPair 1, scriptPair]).1 =
      [pairToTag "1" (wPair 1)] ∧
    [wPair 1, scriptPair].length ≠ 1000 ∧
    (returnTagsLoop "1" [okResponse [wPair 1, scriptPair]] 0 [] 0).result =
      some (.ok ([] ++ (transformPairsToTags "1" [wPair 1, scriptPair]).1)) :=
  have h := transformPairsToTags_spec "1" [wPair 1, scriptPair]
  ⟨h.1, h.2.1, by decide, by decide, h.2.2 [] 0 0 [] (by decide)⟩

/-- Claim C7: for a valid pair the produced tag's address is
`eip155:<chainId>:<pairId>`, its public name tag is the truncated
symbols text plus `" Pair"`, its project name is `"Uniswap v2"`, and
its link is `"https://uniswap.org"`. -/
theorem pairToTag_fields (chainId : String) (pair : Pair)
    (h : (containsHtmlOrMarkdown pair.token0.name ||
          containsHtmlOrMarkdown pair.token0.symbol ||
          containsHtmlOrMarkdown pair.token1.name ||
          containsHtmlOrMarkdown pair.token1.symbol) = false) :
    (transformPairsToTags chainId [pair]).1 = [pairToTag chainId pair] ∧
    (pairToTag chainId pair).contractAddress =
      "eip155:" ++ chainId ++ ":" ++ pair.id ∧
    (pairToTag chainId pair).publicNameTag =
      truncateString (jsTrim pair.token0.symbol ++ "/" ++
        jsTrim pair.token1.symbol) 45 ++ " Pair" ∧
    (pairToTag chainId pair).projectName = "Uniswap v2" ∧
    (pairToTag chainId pair).uiWebsiteLink = "https://uniswap.org" := by
  refine ⟨?_, rfl, rfl, rfl, rfl⟩
  have hg : ((containsHtmlOrMarkdown pair.token0.name ||
      containsHtmlOrMarkdown pair.token0.symbol) ||
    (containsHtmlOrMarkdown pair.token1.name ||
      containsHtmlOrMarkdown pair.token1.symbol)) = false := by
    rw [← Bool.or_assoc]
    exact h
  simp [transformPairsToTags, collectValid, hg]

/-- Claim C7 witness: the tag fields at a concrete plain-text pair. -/
theorem pairToTag_fields_witness :
    ((containsHtmlOrMarkdown (wPair 3).token0.name ||
      containsHtmlOrMarkdown (wPair 3).token0.symbol ||
      containsHtmlOrMarkdown (wPair 3).token1.name ||
      containsHtmlOrMarkdown (wPair 3).token1.symbol) = false) ∧
    ((transformPairsToTags "1" [wPair 3]).1 = [pairToTag "1" (wPair 3)] ∧
    (pairToTag "1" (wPair 3)).contractAddress =
      "eip155:" ++ "1" ++ ":" ++ (wPair 3).id ∧
    (pairToTag "1" (wPair 3)).publicNameTag =
      truncateString (jsTrim (wPair 3).token0.symbol ++ "/" ++
        jsTrim (wPair 3).token1.symbol) 45 ++ " Pair" ∧
    (pairToTag "1" (wPair 3)).projectName = "Uniswap v2" ∧
    (pairToTag "1" (wPair 3)).uiWebsiteLink = "https://uniswap.org") :=
  ⟨by decide, pairToTag_fields "1" (wPair 3) (by decide)⟩

/-- Claim C8: the public note names both tokens' trimmed display names
with the literal `"USD//C"` rewritten to `"USDC"`, each followed by
the token's trimmed symbol; a token named `"USD//C Coin"` renders as
`"USDC Coin"`. -/
theorem pairToTag_publicNote (chainId : String) (pair : Pair) :
    (pairToTag chainId pair).publicNote =
      "The pair contract on Uniswap v2 for the " ++
        jsTrim (replaceFirst pair.token0.name "USD//C" "USDC") ++ " (" ++
        jsTrim pair.token0.symbol ++ ") / " ++
        jsTrim (replaceFirst pair.token1.name "USD//C" "USDC") ++ " (" ++
        jsTrim pair.token1.symbol ++ ") pair." ∧
    (pair.token0.name = "USD//C Coin" →
      (pairToTag chainId pair).publicNote =
        "The pair contract on Uniswap v2 for the " ++ "USDC Coin" ++ " (" ++
          jsTrim pair.token0.symbol ++ ") / " ++
          jsTrim (replaceFirst pair.token1.name "USD//C" "USDC") ++ " (" ++
          jsTrim pair.token1.symbol ++ ") pair.") := by
  constructor
  · rfl
  · intro h
    have base : (pairToTag chainId pair).publicNote =
      "The pair contract on Uniswap v2 for the " ++
        jsTrim (replaceFirst pair.token0.name "USD//C" "USDC") ++ " (" ++
        jsTrim pair.token0.symbol ++ ") / " ++
        jsTrim (replaceFirst pair.token1.name "USD//C" "USDC") ++ " (" ++
        jsTrim pair.token1.symbol ++ ") pair." := rfl
    rw [base, h,
      show jsTrim (replaceFirst "USD//C Coin" "USD//C" "USDC") = "USDC Coin"
        from by decide]

/-- Claim C8 witness: the substitution at a concrete pair whose first
token is named `"USD//C Coin"`. -/
theorem pairToTag_publicNote_witness :
    usdcPair.token0.name = "USD//C Coin" ∧
    (pairToTag "1" usdcPair).publicNote =
      "The pair contract on Uniswap v2 for the " ++ "USDC Coin" ++ " (" ++
        jsTrim usdcPair.token0.symbol ++ ") / " ++
        jsTrim (replaceFirst usdcPair.token1.name "USD//C" "USDC") ++ " (" ++
        jsTrim usdcPair.token1.symbol ++ ") pair." :=
  ⟨rfl, (pairToTag_publicNote "1" usdcPair).2 rfl⟩

/-- Claim C9: when the first fetch returns an empty page, the loop
stops after that single fetch call and `returnTags` resolves with the
empty list, whatever further responses the environment could still
serve. -/
theorem returnTags_empty_first_page (apiKey : String)
    (rest : List HttpResponse) :
    returnTags "1" apiKey (okResponse [] :: rest) =
      ⟨some (.ok []), [0], ["Retrieved first 1000 entries..."]⟩ := by
  rw [returnTags_ok_url,
    returnTagsLoop_short "1" (okResponse []) [] rest 0 [] 0
      (fetchData_okResponse [] 0) (by decide)]
  decide

/-- Claim C1: over a scripted run with page sizes 1000, 1000, 400,
each page ascending by timestamp, exactly 3 fetch calls occur, the
cursor passed to fetch `n + 1` is the maximum timestamp of page `n`,
and the result concatenates the tags of the three pages in order. -/
theorem returnTags_pagination (apiKey : String) (p1 p2 p3 : List Pair)
    (h1 : p1.length = 1000) (h2 : p2.length = 1000) (h3 : p3.length = 400)
    (s1 : SortedByTimestamp p1) (s2 : SortedByTimestamp p2)
    (s3 : SortedByTimestamp p3) :
    (returnTags "1" apiKey
      [okResponse p1, okResponse p2, okResponse p3]).cursors.length = 3 ∧
    (returnTags "1" apiKey
      [okResponse p1, okResponse p2, okResponse p3]).cursors =
      [0, maxTS p1, maxTS p2] ∧
    (returnTags "1" apiKey
      [okResponse p1, okResponse p2, okResponse p3]).result =
      some (.ok ((transformPairsToTags "1" p1).1 ++
        (transformPairsToTags "1" p2).1 ++ (transformPairsToTags "1" p3).1)) := by
  have hne1 : p1 ≠ [] := by
    intro hh
    rw [hh] at h1
    simp at h1
  have hne2 : p2 ≠ [] := by
    intro hh
    rw [hh] at h2
    simp at h2
  have hm1 : (p1.getLastD defPair).createdAtTimestamp = maxTS p1 :=
    getLastD_ts_sorted p1 defPair hne1 s1
  have hm2 : (p2.getLastD defPair).createdAtTimestamp = maxTS p2 :=
    getLastD_ts_sorted p2 defPair hne2 s2
  have e0 := returnTags_ok_url apiKey [okResponse p1, okResponse p2, okResponse p3]
  have e1 := returnTagsLoop_full "1" (okResponse p1) p1
    [okResponse p2, okResponse p3] 0 [] 0 (fetchData_okResponse p1 0) h1
  have e2 := returnTagsLoop_full "1" (okResponse p2) p2 [okResponse p3]
    ((p1.getLastD defPair).createdAtTimestamp)
    ([] ++ (transformPairsToTags "1" p1).1) (0 + 1)
    (fetchData_okResponse p2 _) h2
  have e3 := returnTagsLoop_short "1" (okResponse p3) p3 []
    ((p2.getLastD defPair).createdAtTimestamp)
    (([] ++ (transformPairsToTags "1" p1).1) ++ (transformPairsToTags "1" p2).1)
    (0 + 1 + 1) (fetchData_okResponse p3 _) (by rw [h3]; decide)
  rw [List.getLastD_eq_getLast?] at hm1 hm2
  rw [e0, e1, e2, e3]
  simp [hm1, hm2, List.append_assoc]

/-- Claim C1 witness: three concrete pages of sizes 1000, 1000, 400 at
timestamps 5, 7, 9 produce 3 fetch calls with cursors 0, 5, 7 and the
concatenated tags. -/
theorem returnTags_pagination_witness :
    page1.length = 1000 ∧ page2.length = 1000 ∧ page3.length = 400 ∧
    SortedByTimestamp page1 ∧ SortedByTimestamp page2 ∧
    SortedByTimestamp page3 ∧
    ((returnTags "1" "key"
      [okResponse page1, okResponse page2, okResponse page3]).cursors.length = 3 ∧
    (returnTags "1" "key"
      [okResponse page1, okResponse page2, okResponse page3]).cursors =
      [0, maxTS page1, maxTS page2] ∧
    (returnTags "1" "key"
      [okResponse page1, okResponse page2, okResponse page3]).result =
      some (.ok ((transformPairsToTags "1" page1).1 ++
        (transformPairsToTags "1" page2).1 ++
        (transformPairsToTags "1" page3).1))) := by
  have hs1 : SortedByTimestamp page1 := by
    unfold page1
    exact List.chain'_replicate_of_rel 1000 (le_refl _)
  have hs2 : SortedByTimestamp page2 := by
    unfold page2
    exact List.chain'_replicate_of_rel 1000 (le_refl _)
  have hs3 : SortedByTimestamp page3 := by
    unfold page3
    exact List.chain'_replicate_of_rel 400 (le_refl _)
  exact ⟨by unfold page1; rw [List.length_replicate], by unfold page2; rw [List.length_replicate], by unfold page3; rw [List.length_replicate], hs1, hs2, hs3,
    returnTags_pagination "key" page1 page2 page3
      (by unfold page1; rw [List.length_replicate]) (by unfold page2; rw [List.length_replicate]) (by unfold page3; rw [List.length_replicate]) hs1 hs2 hs3⟩

/-- A loop rejection always carries the `Failed fetching data:`
context wrapper and a matching console line. -/
theorem returnTagsLoop_error_shape (chainId : String)
    (responses : List HttpResponse) :
    ∀ (lt : Nat) (acc : List ContractTag) (ctr : Nat) (msg : String),
      (returnTagsLoop chainId responses lt acc ctr).result =
        some (.error msg) →
      ∃ m, msg = "Failed fetching data: Error: " ++ m ∧
        ("An error occurred: " ++ m) ∈
          (returnTagsLoop chainId responses lt acc ctr).logs := by
  induction responses with
  | nil =>
    intro lt acc ctr msg h
    simp [returnTagsLoop] at h
  | cons r rest ih =>
    intro lt acc ctr msg h
    rcases hf : fetchData r lt with ⟨fres, flogs⟩
    cases fres with
    | error m0 =>
      rw [returnTagsLoop_error_step chainId r rest lt acc ctr m0 flogs hf]
        at h ⊢
      simp only [Option.some.injEq, Except.error.injEq] at h
      refine ⟨m0, h.symm, ?_⟩
      simp
    | ok pairs =>
      have hfl : flogs = [] := fetchData_ok_no_logs r lt pairs flogs hf
      subst hfl
      by_cases hlen : pairs.length = 1000
      · rw [returnTagsLoop_full chainId r pairs rest lt acc ctr hf hlen]
          at h ⊢
        obtain ⟨m, hm, hmem⟩ := ih _ _ _ _ h
        refine ⟨m, hm, ?_⟩
        simp only [List.mem_append]
        exact Or.inr hmem
      · rw [returnTagsLoop_short chainId r pairs rest lt acc ctr hf hlen] at h
        simp at h

/-- Claim C2 (amended): a rejecting run of `returnTags` either carries
the unsupported-chain message itself — propagated unwrapped, with no
console output and no fetch call — or a fetch-stage message that is
logged with context and wrapped with the `Failed fetching data:`
context text; in both cases the run returns no tags. -/
theorem returnTags_error_propagation (chainId apiKey : String)
    (responses : List HttpResponse) (msg : String)
    (h : (returnTags chainId apiKey responses).result = some (.error msg)) :
    (msg = unsupportedMsg chainId ∧
      (returnTags chainId apiKey responses).logs = [] ∧
      (returnTags chainId apiKey responses).cursors = []) ∨
    (∃ m, msg = "Failed fetching data: Error: " ++ m ∧
      ("An error occurred: " ++ m) ∈
        (returnTags chainId apiKey responses).logs) := by
  cases hp : prepareUrl chainId apiKey with
  | error m =>
    left
    have e : returnTags chainId apiKey responses = ⟨some (.error m), [], []⟩ := by
      simp [returnTags, hp]
    rw [e] at h
    simp only [Option.some.injEq, Except.error.injEq] at h
    refine ⟨?_, by rw [e], by rw [e]⟩
    rw [← h]
    exact prepareUrl_error_msg chainId apiKey m hp
  | ok url =>
    right
    have e : returnTags chainId apiKey responses =
        returnTagsLoop chainId responses 0 [] 0 := by
      simp [returnTags, hp]
    rw [e] at h ⊢
    exact returnTagsLoop_error_shape chainId responses 0 [] 0 msg h

/-- Claim C2 counterexample: for the unsupported chain id `"2"`,
`returnTags` rejects with the unsupported-network message itself —
nothing is logged and the message does not begin with the
`Failed fetching data:` wrapping context, so the error is neither
logged nor wrapped. -/
theorem returnTags_unsupported_unwrapped :
    (returnTags "2" "k" []).result =
      some (.error "Unsupported or invalid Chain ID provided: 2. Only the following values are accepted: 1") ∧
    (returnTags "2" "k" []).logs = [] ∧
    ("Unsupported or invalid Chain ID provided: 2. Only the following values are accepted: 1").data.take 22 ≠
      ("Failed fetching data: ").data := by
  refine ⟨by decide, by decide, by decide⟩

/-- Claim C2 witness: an HTTP 500 on the first fetch is logged and
rejected wrapped; the propagation theorem applies to this run. -/
theorem returnTags_error_propagation_witness :
    (returnTags "1" "k" [⟨false, 500, ⟨none, none⟩⟩]).result =
      some (.error "Failed fetching data: Error: HTTP error: 500") ∧
    (("Failed fetching data: Error: HTTP error: 500" = unsupportedMsg "1" ∧
      (returnTags "1" "k" [⟨false, 500, ⟨none, none⟩⟩]).logs = [] ∧
      (returnTags "1" "k" [⟨false, 500, ⟨none, none⟩⟩]).cursors = []) ∨
    (∃ m, "Failed fetching data: Error: HTTP error: 500" =
        "Failed fetching data: Error: " ++ m ∧
      ("An error occurred: " ++ m) ∈
        (returnTags "1" "k" [⟨false, 500, ⟨none, none⟩⟩]).logs)) := by
  have hres : (returnTags "1" "k" [⟨false, 500, ⟨none, none⟩⟩]).result =
      some (.error "Failed fetching data: Error: HTTP error: 500") := by decide
  exact ⟨hres, returnTags_error_propagation "1" "k" _ _ hres⟩

end UniswapV2Atq
